import Mathlib

/-!
Formal model of the `django-poi-importer` ingestion pipeline
(`poi_ingest/ingest/services/normalizers.py`, `schemas.py`, `upsert.py`,
`parsers.py` and `management/commands/import_poi.py`).

Modelling conventions:
* Python `float` and `Decimal` are modelled as `ℚ` (exact rational
  arithmetic).  The pipeline only manipulates short decimal literals, for
  which `float` arithmetic and its `str`-round-trip coincide with the exact
  rational value, so `Decimal(str(x))` is modelled as the identity.
* Loosely-typed Python values (the contents of parsed CSV cells, JSON
  documents and payload dictionaries) are modelled by the inductive `PyVal`.
* Fallible Python code is modelled with `Except Exc`; the constructors of
  `Exc` distinguish the exception classes that matter to the claims
  (`ValueError`, `decimal.InvalidOperation`, Django's `ValidationError`,
  `TypeError`).
* The Django ORM store is modelled as a list of rows plus an auto-increment
  id counter; `save()` runs `full_clean()` (the model overrides `save`), so
  a row is persisted only if it passes the field/constraint checks collected
  in `validPoi`.
-/

namespace PoiIngest

/-- Python `decimal` rounding `ROUND_HALF_UP` (round half away from zero) at
`d` fractional digits, as used by `compute_average_rating` via
`Decimal.quantize(Decimal("0.01"), rounding=ROUND_HALF_UP)`. -/
def round_half_up (d : ℕ) (x : ℚ) : ℚ :=
  let m : ℚ := (10 : ℚ) ^ d
  if 0 ≤ x then (⌊x * m + 1/2⌋ : ℤ) / m
  else -((⌊(-x) * m + 1/2⌋ : ℤ) / m)

/-- Python `decimal` default rounding `ROUND_HALF_EVEN` at `d` fractional
digits, as used by `parse_coordinates` via `.quantize(Decimal("0.000001"))`
(no explicit rounding argument). -/
def round_half_even (d : ℕ) (x : ℚ) : ℚ :=
  let m : ℚ := (10 : ℚ) ^ d
  let y : ℚ := x * m
  let fl : ℤ := ⌊y⌋
  if y - fl < 1/2 then fl / m
  else if y - fl > 1/2 then (fl + 1) / m
  else if fl % 2 = 0 then fl / m else (fl + 1) / m

/-- Loosely-typed Python values flowing through the pipeline: `None`,
strings, numbers (`int`/`float`, modelled as `ℚ`), `decimal.Decimal`
(kept distinct because the code branches on `isinstance(x, Decimal)` and
`isinstance(x, (int, float))` is `False` for a `Decimal`), lists and dicts
(dicts as association lists in insertion order). -/
inductive PyVal where
  | none : PyVal
  | str (s : String) : PyVal
  | num (q : ℚ) : PyVal
  | dec (q : ℚ) : PyVal
  | list (xs : List PyVal) : PyVal
  | dict (kvs : List (String × PyVal)) : PyVal

/-- Numeric value of a list of ASCII digit characters. -/
def digitsVal (cs : List Char) : ℕ :=
  cs.foldl (fun a c => a * 10 + (c.toNat - 48)) 0

/-- Shared numeric-literal grammar for Python `float(s)` and `Decimal(s)`
on an already-stripped string: `[+|-] (digits [. digits*] | . digits)
[(e|E) [+|-] digits]`, consuming the whole input.  (The special spellings
`inf`/`nan` and digit underscores are omitted; no pipeline input uses
them.) -/
def parseDecLit? (cs : List Char) : Option ℚ :=
  let signed : Bool × List Char :=
    match cs with
    | '+' :: t => (false, t)
    | '-' :: t => (true, t)
    | _ => (false, cs)
  let neg := signed.1
  let ip := signed.2.takeWhile Char.isDigit
  let rest1 := signed.2.dropWhile Char.isDigit
  let fracPart : List Char × List Char :=
    match rest1 with
    | '.' :: t => (t.takeWhile Char.isDigit, t.dropWhile Char.isDigit)
    | _ => ([], rest1)
  let fp := fracPart.1
  let rest2 := fracPart.2
  if ip.isEmpty && fp.isEmpty then Option.none
  else
    let mant : ℚ := (digitsVal ip : ℚ) + (digitsVal fp : ℚ) / (10 : ℚ) ^ fp.length
    let mant : ℚ := if neg then -mant else mant
    match rest2 with
    | [] => Option.some mant
    | 'e' :: t => parseExpSuffix mant t
    | 'E' :: t => parseExpSuffix mant t
    | _ => Option.none
where
  /-- Optional-sign exponent digits, consuming the rest of the input. -/
  parseExpSuffix (mant : ℚ) (t : List Char) : Option ℚ :=
    let esigned : Bool × List Char :=
      match t with
      | '+' :: u => (false, u)
      | '-' :: u => (true, u)
      | _ => (false, t)
    let ed := esigned.2.takeWhile Char.isDigit
    let rest := esigned.2.dropWhile Char.isDigit
    if ed.isEmpty || !rest.isEmpty then Option.none
    else if esigned.1 then Option.some (mant / (10 : ℚ) ^ digitsVal ed)
    else Option.some (mant * (10 : ℚ) ^ digitsVal ed)

/-- Python `float(s)` on a stripped string: the parsed value, or failure
(`ValueError`). -/
def pyFloat? (s : String) : Option ℚ := parseDecLit? s.trim.data

/-- Python `Decimal(s)`: succeeds on numeric literals (surrounding
whitespace allowed), raises `decimal.InvalidOperation` otherwise. -/
def pyDecimal? (s : String) : Option ℚ := parseDecLit? s.trim.data

/-- Decimal rendering of a rational with a finite decimal expansion, used to
model Python `str()` on the numbers the pipeline handles (floats read from
decimal literals).  Falls back to the raw fraction for infinite expansions,
which no pipeline value has. -/
def qToDecString (q : ℚ) : String :=
  if q.den = 1 then toString q.num
  else
    match (List.range 30).find? (fun k => (q * (10 : ℚ) ^ (k + 1)).den = 1) with
    | Option.some k =>
        let k := k + 1
        let n := (q * (10 : ℚ) ^ k).num
        let sign := if n < 0 then "-" else ""
        let a := n.natAbs
        let intPart := a / 10 ^ k
        let fracPart := a % 10 ^ k
        let fracStr := toString fracPart
        let pad := String.mk (List.replicate (k - fracStr.length) '0')
        sign ++ toString intPart ++ "." ++ pad ++ fracStr
    | Option.none => toString q

/-- Python `str()` on the values the pipeline can feed to it
(`normalize_string`'s fallback branch). Container rendering is abbreviated:
no claim exercises it. -/
def pyStr : PyVal → String
  | PyVal.none => "None"
  | PyVal.str s => s
  | PyVal.num q => qToDecString q
  | PyVal.dec q => qToDecString q
  | PyVal.list _ => "<list>"
  | PyVal.dict _ => "<dict>"

/-- Whitespace skipped by `json.loads` between tokens. -/
def skipWs (cs : List Char) : List Char :=
  cs.dropWhile (fun c => c == ' ' || c == '\t' || c == '\n' || c == '\r')

/-- String-body scanner for the JSON reader: characters up to the closing
quote, decoding the common escapes. -/
def jsonStringBody : List Char → Option (String × List Char)
  | [] => Option.none
  | '"' :: t => Option.some ("", t)
  | '\\' :: c :: t =>
      let dec? : Option Char :=
        if c == 'n' then Option.some '\n'
        else if c == 't' then Option.some '\t'
        else if c == 'r' then Option.some '\r'
        else if c == 'b' then Option.some (Char.ofNat 8)
        else if c == 'f' then Option.some (Char.ofNat 12)
        else if c == '"' || c == '\\' || c == '/' then Option.some c
        else Option.none
      match dec? with
      | Option.some d =>
          match jsonStringBody t with
          | Option.some (s, r) => Option.some (String.mk (d :: s.data), r)
          | Option.none => Option.none
      | Option.none => Option.none
  | '\\' :: [] => Option.none
  | c :: t =>
      match jsonStringBody t with
      | Option.some (s, r) => Option.some (String.mk (c :: s.data), r)
      | Option.none => Option.none

/-- JSON number grammar: `-? digits (. digits)? ((e|E) sign? digits)?`.
(The model does not enforce JSON's ban on leading zeros; no claim depends
on it.) -/
def jsonNumber? (cs : List Char) : Option (ℚ × List Char) :=
  let signed : Bool × List Char :=
    match cs with
    | '-' :: t => (true, t)
    | _ => (false, cs)
  let ip := signed.2.takeWhile Char.isDigit
  let rest1 := signed.2.dropWhile Char.isDigit
  if ip.isEmpty then Option.none
  else
    let fracPart : List Char × List Char :=
      match rest1 with
      | '.' :: t =>
          let fp := t.takeWhile Char.isDigit
          if fp.isEmpty then ([], '.' :: t) else (fp, t.dropWhile Char.isDigit)
      | _ => ([], rest1)
    let fp := fracPart.1
    let rest2 := fracPart.2
    let mant : ℚ := (digitsVal ip : ℚ) + (digitsVal fp : ℚ) / (10 : ℚ) ^ fp.length
    let mant : ℚ := if signed.1 then -mant else mant
    let expPart : Option (ℚ × List Char) :=
      match rest2 with
      | 'e' :: t => jsonExp? mant t
      | 'E' :: t => jsonExp? mant t
      | _ => Option.some (mant, rest2)
    expPart
where
  /-- Exponent suffix of a JSON number. -/
  jsonExp? (mant : ℚ) (t : List Char) : Option (ℚ × List Char) :=
    let esigned : Bool × List Char :=
      match t with
      | '+' :: u => (false, u)
      | '-' :: u => (true, u)
      | _ => (false, t)
    let ed := esigned.2.takeWhile Char.isDigit
    let rest := esigned.2.dropWhile Char.isDigit
    if ed.isEmpty then Option.none
    else if esigned.1 then Option.some (mant / (10 : ℚ) ^ digitsVal ed, rest)
    else Option.some (mant * (10 : ℚ) ^ digitsVal ed, rest)

mutual

/-- One JSON value (fuel-indexed recursive-descent reader modelling
`json.loads`).  Python booleans are `int` subclasses everywhere the pipeline
looks at them, so `true`/`false` are read as the numbers `1`/`0`. -/
def jsonVal : ℕ → List Char → Option (PyVal × List Char)
  | 0, _ => Option.none
  | fuel + 1, cs =>
      match skipWs cs with
      | [] => Option.none
      | '[' :: t =>
          (match skipWs t with
           | ']' :: r => Option.some (PyVal.list [], r)
           | u =>
               match jsonArrItems fuel u with
               | Option.some (xs, r) => Option.some (PyVal.list xs, r)
               | Option.none => Option.none)
      | '{' :: t =>
          (match skipWs t with
           | '}' :: r => Option.some (PyVal.dict [], r)
           | u =>
               match jsonObjItems fuel u with
               | Option.some (kvs, r) => Option.some (PyVal.dict kvs, r)
               | Option.none => Option.none)
      | '"' :: t =>
          (match jsonStringBody t with
           | Option.some (s, r) => Option.some (PyVal.str s, r)
           | Option.none => Option.none)
      | 't' :: 'r' :: 'u' :: 'e' :: r => Option.some (PyVal.num 1, r)
      | 'f' :: 'a' :: 'l' :: 's' :: 'e' :: r => Option.some (PyVal.num 0, r)
      | 'n' :: 'u' :: 'l' :: 'l' :: r => Option.some (PyVal.none, r)
      | u =>
          match jsonNumber? u with
          | Option.some (q, r) => Option.some (PyVal.num q, r)
          | Option.none => Option.none

/-- Comma-separated JSON array items up to the closing bracket. -/
def jsonArrItems : ℕ → List Char → Option (List PyVal × List Char)
  | 0, _ => Option.none
  | fuel + 1, cs =>
      match jsonVal fuel cs with
      | Option.none => Option.none
      | Option.some (v, r) =>
          match skipWs r with
          | ',' :: t =>
              (match jsonArrItems fuel (skipWs t) with
               | Option.some (xs, r2) => Option.some (v :: xs, r2)
               | Option.none => Option.none)
          | ']' :: t => Option.some ([v], t)
          | _ => Option.none

/-- Comma-separated JSON object members up to the closing brace. -/
def jsonObjItems : ℕ → List Char → Option (List (String × PyVal) × List Char)
  | 0, _ => Option.none
  | fuel + 1, cs =>
      match skipWs cs with
      | '"' :: t =>
          (match jsonStringBody t with
           | Option.some (k, r) =>
               (match skipWs r with
                | ':' :: u =>
                    (match jsonVal fuel u with
                     | Option.some (v, r2) =>
                         (match skipWs r2 with
                          | ',' :: t2 =>
                              (match jsonObjItems fuel t2 with
                               | Option.some (kvs, r3) =>
                                   Option.some ((k, v) :: kvs, r3)
                               | Option.none => Option.none)
                          | '}' :: t2 => Option.some ([(k, v)], t2)
                          | _ => Option.none)
                     | Option.none => Option.none)
                | _ => Option.none)
           | Option.none => Option.none)
      | _ => Option.none

end

/-- Python `json.loads`: a single JSON value followed only by whitespace. -/
def jsonParse (s : String) : Option PyVal :=
  match jsonVal (s.length + 1) s.data with
  | Option.some (v, rest) => if (skipWs rest).isEmpty then Option.some v else Option.none
  | Option.none => Option.none

/-! Normalizers (`ingest/services/normalizers.py`). -/

/-- `coerce_to_float(value, default)`: numbers pass through, strings are
stripped and parsed, everything else (including `None` and unparseable
strings) yields `default` with a logged warning — it never raises. -/
def coerce_to_float (value : PyVal) (dflt : ℚ) : ℚ :=
  match value with
  | PyVal.none => dflt
  | PyVal.num q => q
  | PyVal.str s =>
      -- the source strips, returns the default on an empty result, and
      -- otherwise tries float(); `pyFloat?` already strips, and fails on
      -- the empty string, so both default branches collapse into one
      if s.trim = "" then dflt
      else
        match pyFloat? s with
        | Option.some q => q
        | Option.none => dflt
  | _ => dflt

/-- Brace-delimited branch of `coerce_to_float_list`: when the stripped
string starts with `{` and ends with `}`, every `{`/`}` is replaced by
`[`/`]` and the result is fed to `json.loads`; a parsed list is converted
element-wise with `coerce_to_float` (whose surrounding `try` never fires). -/
def braceBranch (v : String) : Option (List ℚ) :=
  if v.startsWith "\x7b" && v.endsWith "\x7d" then
    match jsonParse ((v.replace "\x7b" "[").replace "\x7d" "]") with
    | Option.some (PyVal.list xs) => Option.some (xs.map (fun x => coerce_to_float x 0))
    | _ => Option.none
  else Option.none

/-- JSON-array branch of `coerce_to_float_list`: strings that start with `[`
and end with `]` are fed to `json.loads` directly. -/
def jsonArrayBranch (v : String) : Option (List ℚ) :=
  if v.startsWith "[" && v.endsWith "]" then
    match jsonParse v with
    | Option.some (PyVal.list xs) => Option.some (xs.map (fun x => coerce_to_float x 0))
    | _ => Option.none
  else Option.none

/-- `re.sub(r"^\[|\]$", "", v)`: drop one leading `[` and one trailing `]`
if present. -/
def stripSquare (v : String) : String :=
  let v1 := if v.startsWith "[" then v.drop 1 else v
  if v1.endsWith "]" then v1.dropRight 1 else v1

/-- `re.sub(r"^\{|\}$", "", v)`: drop one leading `{` and one trailing `}`
if present. -/
def stripBrace (v : String) : String :=
  let v1 := if v.startsWith "\x7b" then v.drop 1 else v
  if v1.endsWith "\x7d" then v1.dropRight 1 else v1

/-- Separator-split branch of `coerce_to_float_list`: brackets/braces are
stripped, the string is split on the separator, blank items are skipped and
each remaining item goes through `coerce_to_float` (never raising, so
non-numeric items become the default `0.0`). -/
def splitBranch (v : String) (sep : String) : List ℚ :=
  ((stripBrace (stripSquare v)).splitOn sep).filterMap fun item =>
    let it := item.trim
    if it = "" then Option.none else Option.some (coerce_to_float (PyVal.str it) 0)

/-- `coerce_to_float_list(value, separator)`: native lists convert
element-wise; strings try, in order, the brace-delimited encoding, the JSON
array encoding and finally the separator split; `None` and other types give
the empty list. -/
def coerce_to_float_list (value : PyVal) (sep : String) : List ℚ :=
  match value with
  | PyVal.none => []
  | PyVal.list xs => xs.map (fun x => coerce_to_float x 0)
  | PyVal.str s =>
      let v := s.trim
      if v = "" || v = "[]" then []
      else
        match braceBranch v with
        | Option.some r => r
        | Option.none =>
            match jsonArrayBranch v with
            | Option.some r => r
            | Option.none => splitBranch v sep
  | _ => []

/-- `clamp_rating(rating, min_val, max_val)`: saturate to the nearest
bound. -/
def clamp_rating (rating minVal maxVal : ℚ) : ℚ :=
  if rating < minVal then minVal
  else if rating > maxVal then maxVal
  else rating

/-- `compute_average_rating(ratings)`: `0.00` on an empty list, otherwise
each element is clamped into `[0, 5]`, the mean is taken and rounded
half-up to two decimals. -/
def compute_average_rating (ratings : List ℚ) : ℚ :=
  if ratings.isEmpty then 0
  else
    let clamped := ratings.map (fun r => clamp_rating r 0 5)
    let average := clamped.sum / (clamped.length : ℚ)
    round_half_up 2 average

/-- `parse_coordinates(latitude, longitude)`: both values are coerced with
default `0.0`, range-checked, and quantized to six decimals; an
out-of-range value produces the absent pair `(None, None)`.  (The
`except` clause around quantization is unreachable for in-range rationals
and is not modelled.) -/
def parse_coordinates (latitude longitude : PyVal) : Option (ℚ × ℚ) :=
  if ¬((-90 : ℚ) ≤ coerce_to_float latitude 0 ∧ coerce_to_float latitude 0 ≤ 90) then
    Option.none
  else if ¬((-180 : ℚ) ≤ coerce_to_float longitude 0 ∧ coerce_to_float longitude 0 ≤ 180) then
    Option.none
  else
    Option.some (round_half_even 6 (coerce_to_float latitude 0),
                 round_half_even 6 (coerce_to_float longitude 0))

/-- `normalize_string(value, default)`: `None` and blank strings yield the
default, strings are stripped, non-strings are stringified and stripped
(without the empty-falls-to-default rule). -/
def normalize_string (value : PyVal) (dflt : String) : String :=
  match value with
  | PyVal.none => dflt
  | PyVal.str s =>
      let n := s.trim
      if n = "" then dflt else n
  | v => (pyStr v).trim

/-! Validation schema (`ingest/services/schemas.py`). -/

/-- Exception classes distinguished by the model: `ValueError`,
`decimal.InvalidOperation` (NOT a `ValueError` subclass), pydantic/Django
`ValidationError`, and `TypeError`. -/
inductive Exc where
  | valueError (msg : String) : Exc
  | invalidOperation : Exc
  | validationError : Exc
  | typeError : Exc
deriving DecidableEq

/-- The raw field map every parser assembles before validation (its
`ratings` entry is a Python list whose elements are kept loosely typed,
mirroring what a caller may pass to `PointInPayload`). -/
structure RawRecordData where
  external_id : String
  source : String
  name : String
  latitude : ℚ
  longitude : ℚ
  category : String
  ratings : List PyVal
  description : String

/-- A validated `PointInPayload` pydantic model instance. -/
structure PointInPayload where
  external_id : String
  source : String
  name : String
  latitude : ℚ
  longitude : ℚ
  category : String
  ratings : List ℚ
  description : String
deriving DecidableEq

/-- The `validate_ratings` field validator exactly as written in
`schemas.py`: skip entries that are not `int`/`float` instances, clamp the
rest into `[0, 5]`.  Being declared with pydantic-v2 `field_validator`
(default `mode="after"`), it only ever runs AFTER the `List[Rating]`
annotation has been enforced. -/
def validate_ratings (v : List PyVal) : List ℚ :=
  v.filterMap fun r =>
    match r with
    | PyVal.num q =>
        Option.some (if q < 0 then 0 else if q > 5 then 5 else q)
    | _ => Option.none

/-- The `validate_description` field validator: strings longer than 1000
characters are truncated. -/
def validate_description (v : String) : String :=
  if v.length > 1000 then String.mk (v.data.take 1000) else v

/-- Pydantic-core validation of one element of `List[Rating]` where
`Rating = confloat(ge=0.0, le=5.0)`: lax coercion to `float` followed by the
bound checks.  An out-of-range or uncoercible element fails the whole
model validation (this runs BEFORE `validate_ratings`). -/
def ratingItem? (r : PyVal) : Option ℚ :=
  let asFloat? : Option ℚ :=
    match r with
    | PyVal.num q => Option.some q
    | PyVal.dec q => Option.some q
    | PyVal.str s => pyFloat? s
    | _ => Option.none
  match asFloat? with
  | Option.some x => if 0 ≤ x ∧ x ≤ 5 then Option.some x else Option.none
  | Option.none => Option.none

/-- Whether a rational respects `decimal_places = d` (at most `d` fractional
digits). -/
def decimalPlacesLe (d : ℕ) (q : ℚ) : Bool := (q * (10 : ℚ) ^ d).den = 1

/-- `validate_poi_record` / `PointInPayload(**data)`: pydantic validation of
the raw field map.  Field order and constraints follow the schema:
`constr` trim-and-length checks on `external_id`, `name`, `category`; the
`Literal` source; `condecimal` range and digit limits on the coordinates;
the `List[Rating]` element bounds and then the `validate_ratings` and
`validate_description` field validators. -/
def validate_poi_record (d : RawRecordData) : Except Exc PointInPayload :=
  let eid := d.external_id.trim
  if eid.length < 1 || eid.length > 128 then Except.error Exc.validationError
  else if !(d.source == "csv" || d.source == "json" || d.source == "xml") then
    Except.error Exc.validationError
  else
    let name := d.name.trim
    if name.length < 1 || name.length > 255 then Except.error Exc.validationError
    else if ¬((-90 : ℚ) ≤ d.latitude ∧ d.latitude ≤ 90 ∧
              decimalPlacesLe 6 d.latitude = true ∧ |d.latitude| < 1000) then
      Except.error Exc.validationError
    else if ¬((-180 : ℚ) ≤ d.longitude ∧ d.longitude ≤ 180 ∧
              decimalPlacesLe 6 d.longitude = true ∧ |d.longitude| < 1000) then
      Except.error Exc.validationError
    else
      let cat := d.category.trim
      if cat.length < 1 || cat.length > 64 then Except.error Exc.validationError
      else
        match d.ratings.mapM ratingItem? with
        | Option.none => Except.error Exc.validationError
        | Option.some coreRatings =>
            Except.ok
              { external_id := eid
                source := d.source
                name := name
                latitude := d.latitude
                longitude := d.longitude
                category := cat
                ratings := validate_ratings (coreRatings.map PyVal.num)
                description := validate_description d.description }

/-- `model_dump()` of a validated record: the dict the parsers yield, with
the schema's field set. -/
def model_dump (p : PointInPayload) : List (String × PyVal) :=
  [("external_id", PyVal.str p.external_id),
   ("source", PyVal.str p.source),
   ("name", PyVal.str p.name),
   ("latitude", PyVal.dec p.latitude),
   ("longitude", PyVal.dec p.longitude),
   ("category", PyVal.str p.category),
   ("ratings", PyVal.list (p.ratings.map PyVal.num)),
   ("description", PyVal.str p.description)]

/-! JSON parsing pipeline (`parsers.py` and the management command's
streaming wrapper). -/

/-- Python `obj.get(k)`: `None` when the key is absent. -/
def dictGet (kvs : List (String × PyVal)) (k : String) : PyVal :=
  (kvs.lookup k).getD PyVal.none

/-- Python `obj.get(k, d)`. -/
def dictGetD (kvs : List (String × PyVal)) (k : String) (d : PyVal) : PyVal :=
  (kvs.lookup k).getD d

/-- `_parse_json_object`: normalize one JSON object into the raw field map
(requiring `id` and `name`, accepting 2-element-array or object
coordinates), validate it through the pydantic schema and return its
`model_dump`, or `None` when any step rejects. -/
def parse_json_object (obj : List (String × PyVal)) : Option (List (String × PyVal)) :=
  let eid := normalize_string (dictGet obj "id") ""
  if eid = "" then Option.none
  else
    let name := normalize_string (dictGet obj "name") ""
    if name = "" then Option.none
    else
      let coords := dictGetD obj "coordinates" (PyVal.dict [])
      let latlon? : Option (ℚ × ℚ) :=
        match coords with
        | PyVal.list (a :: b :: _) => parse_coordinates a b
        | PyVal.dict kv =>
            parse_coordinates (dictGet kv "latitude") (dictGet kv "longitude")
        | _ => Option.none
      match latlon? with
      | Option.none => Option.none
      | Option.some (lat, lon) =>
          let ratings := coerce_to_float_list (dictGetD obj "ratings" (PyVal.list [])) ","
          let record : RawRecordData :=
            { external_id := eid
              name := name
              latitude := lat
              longitude := lon
              category := normalize_string (dictGet obj "category") "Unknown"
              ratings := ratings.map PyVal.num
              description := normalize_string (dictGetD obj "description" (PyVal.str "")) ""
              source := "json" }
          match validate_poi_record record with
          | Except.ok p => Option.some (model_dump p)
          | Except.error _ => Option.none

/-- `parse_json` on an already-decoded JSON document: a single object
yields at most one record, an array yields one per object element, anything
else yields none.  (The newline-delimited fallback applies only to files
that fail `json.loads` and is outside this model.) -/
def parse_json (doc : PyVal) : List (List (String × PyVal)) :=
  match doc with
  | PyVal.dict kv => (parse_json_object kv).toList
  | PyVal.list xs =>
      xs.filterMap fun it =>
        match it with
        | PyVal.dict kv => parse_json_object kv
        | _ => Option.none
  | _ => []

/-- `Command._stream_parse_json`: when the optional `ijson` dependency is
importable and the document is a JSON array, every object element is
yielded RAW (no normalization, no schema validation, no source stamp) and
the function returns; a non-array document yields nothing from `ijson`
(there are no `item` events).  Only when `ijson` is unavailable does the
fallback delegate to `parse_json`. -/
def stream_parse_json (ijsonAvailable : Bool) (doc : PyVal) :
    List (List (String × PyVal)) :=
  if ijsonAvailable then
    match doc with
    | PyVal.list xs =>
        xs.filterMap fun it =>
          match it with
          | PyVal.dict kv => Option.some kv
          | _ => Option.none
    | _ => []
  else parse_json doc

/-! Data model and store (`ingest/models.py`).  The Django ORM is modelled
as a list of rows plus the auto-increment id counter.  `PointOfInterest`
overrides `save()` to run `full_clean()`, so every insert/update is guarded
by the field and constraint checks collected in `validPoi`. -/

/-- A stored `PointOfInterest` row. -/
structure Poi where
  id : ℕ
  external_id : String
  source : String
  name : String
  latitude : ℚ
  longitude : ℚ
  category : String
  ratings_raw : List ℚ
  avg_rating : ℚ
  description : String
deriving DecidableEq

/-- The store: rows in insertion order plus the next auto-increment id. -/
structure Store where
  rows : List Poi
  nextId : ℕ
deriving DecidableEq

/-- A fresh store. -/
def emptyStore : Store := { rows := [], nextId := 1 }

/-- `full_clean()` on a `PointOfInterest`: `CharField` length and blank
checks, source choices, `DecimalField` digit limits (`max_digits=9,
decimal_places=6` for coordinates, `max_digits=3, decimal_places=2` for the
average), the model's `clean()` range checks on `avg_rating` and
`ratings_raw`, and the `avg_rating_range_check` constraint. -/
def validPoi (p : Poi) : Bool :=
  decide (1 ≤ p.external_id.length ∧ p.external_id.length ≤ 128) &&
  (p.source == "csv" || p.source == "json" || p.source == "xml") &&
  decide (1 ≤ p.name.length ∧ p.name.length ≤ 255) &&
  decimalPlacesLe 6 p.latitude && decide (|p.latitude| < 1000) &&
  decimalPlacesLe 6 p.longitude && decide (|p.longitude| < 1000) &&
  decide (1 ≤ p.category.length ∧ p.category.length ≤ 64) &&
  p.ratings_raw.all (fun r => decide ((0 : ℚ) ≤ r ∧ r ≤ 5)) &&
  decide ((0 : ℚ) ≤ p.avg_rating ∧ p.avg_rating ≤ 5) &&
  decimalPlacesLe 2 p.avg_rating && decide (|p.avg_rating| < 10)

/-! Upsert engine (`ingest/services/upsert.py`). -/

/-- The payload dictionary handed to `upsert_poi` (the management command's
records).  A missing dict key is encoded as `PyVal.none`, which coincides
with `payload.get(...)`'s behaviour at every access the function makes. -/
structure Payload where
  external_id : PyVal
  source : PyVal
  name : PyVal
  latitude : PyVal
  longitude : PyVal
  category : PyVal
  ratings : PyVal
  description : PyVal

/-- The fields `upsert_poi` has extracted and validated before touching the
store (everything up to and including the `compute_average_rating` call). -/
structure Prepared where
  external_id : String
  source : String
  name : String
  latitude : ℚ
  longitude : ℚ
  category : String
  description : String
  ratings : List ℚ
deriving DecidableEq

/-- `Decimal(str(value))` in `upsert_poi`'s coordinate conversion: a
`Decimal` passes through (the `isinstance` guard), numbers convert exactly,
non-numeric strings and containers raise `decimal.InvalidOperation` —
which `except (ValueError, TypeError)` does NOT catch, so it propagates
as-is rather than as the intended `ValueError`. -/
def pyToDecimal (v : PyVal) : Except Exc ℚ :=
  match v with
  | PyVal.dec q => Except.ok q
  | PyVal.num q => Except.ok q
  | PyVal.str s =>
      match pyDecimal? s with
      | Option.some q => Except.ok q
      | Option.none => Except.error Exc.invalidOperation
  | _ => Except.error Exc.invalidOperation

/-- Whether a value is Python `None`. -/
def isNonePy (v : PyVal) : Bool :=
  match v with
  | PyVal.none => true
  | _ => false

/-- Elements of the `ratings` list as numbers: `clamp_rating`'s comparisons
raise `TypeError` on non-numeric elements, so `compute_average_rating`
succeeds only when every element is numeric. -/
def ratingsAsFloats? (xs : List PyVal) : Option (List ℚ) :=
  xs.mapM fun r =>
    match r with
    | PyVal.num q => Option.some q
    | PyVal.dec q => Option.some q
    | _ => Option.none

/-- The legacy-dict validation prefix of `upsert_poi` (everything before
`transaction.atomic()`): required-field checks raising `ValueError`,
coordinate conversion, optional-field defaults, and the ratings list
fix-up. -/
def prepare_payload (p : Payload) : Except Exc Prepared :=
  let eid := normalize_string p.external_id ""
  if eid = "" then Except.error (Exc.valueError "external_id is required")
  else
    let src := normalize_string p.source ""
    if !(src == "csv" || src == "json" || src == "xml") then
      Except.error (Exc.valueError "Invalid source, must be one of: csv, json, xml")
    else
      let name := normalize_string p.name ""
      if name = "" then Except.error (Exc.valueError "name is required")
      else if isNonePy p.latitude || isNonePy p.longitude then
        Except.error (Exc.valueError "latitude and longitude are required")
      else
        match pyToDecimal p.latitude with
        | Except.error e => Except.error e
        | Except.ok lat =>
            match pyToDecimal p.longitude with
            | Except.error e => Except.error e
            | Except.ok lon =>
                let rlist : List PyVal :=
                  match p.ratings with
                  | PyVal.list xs => xs
                  | _ => []
                match ratingsAsFloats? rlist with
                | Option.none => Except.error Exc.typeError
                | Option.some qs =>
                    Except.ok
                      { external_id := eid
                        source := src
                        name := name
                        latitude := lat
                        longitude := lon
                        category := normalize_string p.category "Unknown"
                        description := normalize_string p.description ""
                        ratings := qs }

/-- The row inserted by the create path of `get_or_create`: every field
from the prepared record, `avg_rating` recomputed from its ratings. -/
def mkPoi (id : ℕ) (f : Prepared) : Poi :=
  { id := id
    external_id := f.external_id
    source := f.source
    name := f.name
    latitude := f.latitude
    longitude := f.longitude
    category := f.category
    ratings_raw := f.ratings
    avg_rating := compute_average_rating f.ratings
    description := f.description }

/-- The update path: overwrite exactly `name`, `latitude`, `longitude`,
`category`, `ratings_raw`, `avg_rating`, `description` (the
`update_fields` list), keeping `id`, `external_id` and `source`. -/
def updatePoi (old : Poi) (f : Prepared) : Poi :=
  { old with
    name := f.name
    latitude := f.latitude
    longitude := f.longitude
    category := f.category
    ratings_raw := f.ratings
    avg_rating := compute_average_rating f.ratings
    description := f.description }

/-- Row predicate for the `(external_id, source)` unique key. -/
def keyMatches (eid src : String) (q : Poi) : Bool :=
  q.external_id == eid && q.source == src

/-- The `transaction.atomic()` body of `upsert_poi`: `get_or_create` keyed
by `(external_id, source)`, then a full-field update when the row already
exists.  `save()` runs `full_clean()`, so either path fails with
`ValidationError` (store unchanged, the savepoint rolls back) when the row
would violate a constraint. -/
def storePhase (f : Prepared) (st : Store) : Except Exc (Store × Poi × Bool) :=
  match st.rows.find? (keyMatches f.external_id f.source) with
  | Option.none =>
      let poi := mkPoi st.nextId f
      if validPoi poi then
        Except.ok ({ rows := st.rows ++ [poi], nextId := st.nextId + 1 }, poi, true)
      else Except.error Exc.validationError
  | Option.some old =>
      let poi := updatePoi old f
      if validPoi poi then
        Except.ok
          ({ st with
             rows := st.rows.map fun q =>
               if keyMatches f.external_id f.source q then poi else q },
           poi, false)
      else Except.error Exc.validationError

/-- `upsert_poi` on a legacy dict payload: validate, then create-or-update.
An error leaves the caller's store untouched. -/
def upsert_poi (p : Payload) (st : Store) : Except Exc (Store × Poi × Bool) :=
  match prepare_payload p with
  | Except.error e => Except.error e
  | Except.ok f => storePhase f st

/-- `upsert_poi` on an already-validated `PointInPayload` instance (the
other accepted input type): no dict validation, same store phase. -/
def upsert_poi_validated (m : PointInPayload) (st : Store) :
    Except Exc (Store × Poi × Bool) :=
  storePhase
    { external_id := m.external_id
      source := m.source
      name := m.name
      latitude := m.latitude
      longitude := m.longitude
      category := m.category
      description := m.description
      ratings := m.ratings } st

/-- Store-independent success condition for the store phase: the persisted
row passes `full_clean` (the row's id never enters the checks). -/
def fieldsOk (f : Prepared) : Bool := validPoi (mkPoi 0 f)

/-- Store-independent success condition for `upsert_poi`. -/
def payloadOk (p : Payload) : Bool :=
  match prepare_payload p with
  | Except.ok f => fieldsOk f
  | Except.error _ => false

/-! Batch orchestrator (`management/commands/import_poi.py`,
`Command._process_batch`). -/

/-- The orchestrator's database counters. -/
structure Stats where
  created : ℕ
  updated : ℕ
  errors : ℕ
deriving DecidableEq

/-- Result of `_process_batch`: the store, the counters, and whether an
exception propagated out of the method (only with `stop_on_error`). -/
structure BatchResult where
  store : Store
  stats : Stats
  raised : Bool
deriving DecidableEq

/-- The whole-batch pass inside `transaction.atomic()`: each record's
upsert error is caught, counted and skipped — unless `stop_on_error`
re-raises, which aborts (and later rolls back) the transaction.  The
returned flag says whether the atomic block raised. -/
def batchAttempt (stopOnError : Bool) : List Payload → Store → Stats → Store × Stats × Bool
  | [], st, s => (st, s, false)
  | r :: rest, st, s =>
      match upsert_poi r st with
      | Except.ok (st', _, true) =>
          batchAttempt stopOnError rest st' { s with created := s.created + 1 }
      | Except.ok (st', _, false) =>
          batchAttempt stopOnError rest st' { s with updated := s.updated + 1 }
      | Except.error _ =>
          let s' := { s with errors := s.errors + 1 }
          if stopOnError then (st, s', true)
          else batchAttempt stopOnError rest st s'

/-- The per-record fallback pass run after the whole-batch transaction
failed: every record of the batch again, each upsert in its own
transaction, errors counted and (under `stop_on_error`) re-raised. -/
def fallbackPass (stopOnError : Bool) : List Payload → Store → Stats → Store × Stats × Bool
  | [], st, s => (st, s, false)
  | r :: rest, st, s =>
      match upsert_poi r st with
      | Except.ok (st', _, true) =>
          fallbackPass stopOnError rest st' { s with created := s.created + 1 }
      | Except.ok (st', _, false) =>
          fallbackPass stopOnError rest st' { s with updated := s.updated + 1 }
      | Except.error _ =>
          let s' := { s with errors := s.errors + 1 }
          if stopOnError then (st, s', true)
          else fallbackPass stopOnError rest st s'

/-- `Command._process_batch`: run the batch in one transaction; if that
raises, the transaction's store effects are rolled back (the Python
counters are NOT) and the batch is retried record-by-record. -/
def process_batch (stopOnError : Bool) (batch : List Payload) (st : Store) (s : Stats) :
    BatchResult :=
  match batchAttempt stopOnError batch st s with
  | (st1, s1, false) => { store := st1, stats := s1, raised := false }
  | (_, s1, true) =>
      match fallbackPass stopOnError batch st s1 with
      | (st2, s2, raised2) => { store := st2, stats := s2, raised := raised2 }

/-- The cumulative store effect of upserting a list of records in order,
skipping the ones that fail. -/
def applyAll (batch : List Payload) (st : Store) : Store :=
  batch.foldl
    (fun acc r =>
      match upsert_poi r acc with
      | Except.ok (st', _, _) => st'
      | Except.error _ => acc) st

/-! Specification-side definitions, written from the spec's words
(`round_half_up(mean(clamp(r)), 2)`), to be compared with the code-derived
`compute_average_rating`. -/

/-- Spec: an element "clamped into [0,5]". -/
def spec_clamp (x : ℚ) : ℚ := max 0 (min x 5)

/-- Spec: the arithmetic mean. -/
def spec_mean (r : List ℚ) : ℚ := r.sum / (r.length : ℚ)

/-- Spec: `round_half_up(mean(clamp(r)), 2)`. -/
def spec_average_rating (r : List ℚ) : ℚ :=
  round_half_up 2 (spec_mean (r.map spec_clamp))

/-- A prepared record used to witness the upsert clauses. -/
def wPrepared : Prepared :=
  { external_id := "w1"
    source := "csv"
    name := "W"
    latitude := 1
    longitude := 2
    category := "c"
    description := ""
    ratings := [4, 5] }

/-- Concrete payloads and prepared records for the C2/C7 witnesses. -/
def wPayloadA : Payload :=
  { external_id := PyVal.str "w1", source := PyVal.str "csv", name := PyVal.str "A"
    latitude := PyVal.num 1, longitude := PyVal.num 2, category := PyVal.str "c"
    ratings := PyVal.list [PyVal.num 4], description := PyVal.str "d" }

/-- Same key as `wPayloadA`, different payload fields. -/
def wPayloadB : Payload :=
  { external_id := PyVal.str "w1", source := PyVal.str "csv", name := PyVal.str "B"
    latitude := PyVal.num 3, longitude := PyVal.num 4, category := PyVal.str "e"
    ratings := PyVal.list [PyVal.num 5], description := PyVal.str "f" }

/-- Same `external_id` as `wPayloadA`, different `source`. -/
def wPayloadC : Payload :=
  { external_id := PyVal.str "w1", source := PyVal.str "json", name := PyVal.str "C"
    latitude := PyVal.num 5, longitude := PyVal.num 6, category := PyVal.str "g"
    ratings := PyVal.list [], description := PyVal.str "h" }

/-- The prepared form of `wPayloadA`. -/
def wPrepA : Prepared :=
  { external_id := "w1", source := "csv", name := "A", latitude := 1, longitude := 2
    category := "c", description := "d", ratings := [4] }

/-- The prepared form of `wPayloadB`. -/
def wPrepB : Prepared :=
  { external_id := "w1", source := "csv", name := "B", latitude := 3, longitude := 4
    category := "e", description := "f", ratings := [5] }

/-- The prepared form of `wPayloadC`. -/
def wPrepC : Prepared :=
  { external_id := "w1", source := "json", name := "C", latitude := 5, longitude := 6
    category := "g", description := "h", ratings := [] }

/-- A record whose category exceeds the store's 64-character column limit:
it passes the orchestrator's `validate_poi_payload` pre-check (which never
looks at category length) but `full_clean` rejects it at save time. -/
def wPayloadBad : Payload :=
  { external_id := PyVal.str "b1", source := PyVal.str "csv", name := PyVal.str "Bad"
    latitude := PyVal.num 7, longitude := PyVal.num 8
    category := PyVal.str (String.mk (List.replicate 65 'c'))
    ratings := PyVal.list [PyVal.num 3], description := PyVal.str "" }

/-- The spec's clamping scenario as a raw field map: ratings
`[6.0, -1.0, 3.0, 4.0]`, all other fields valid. -/
def c5Raw : RawRecordData :=
  { external_id := "test_clamp", source := "json", name := "Test POI"
    latitude := 40, longitude := -74, category := "restaurant"
    ratings := [PyVal.num 6, PyVal.num (-1), PyVal.num 3, PyVal.num 4]
    description := "Test" }

/-- The same scenario as a dict payload for the legacy upsert path. -/
def c5Payload : Payload :=
  { external_id := PyVal.str "test_clamp", source := PyVal.str "json"
    name := PyVal.str "Test POI", latitude := PyVal.num 40, longitude := PyVal.num (-74)
    category := PyVal.str "restaurant"
    ratings := PyVal.list [PyVal.num 6, PyVal.num (-1), PyVal.num 3, PyVal.num 4]
    description := PyVal.str "Test" }

/-- A raw JSON object in the repository's documented JSON shape
(`id` / `name` / `coordinates`). -/
def rawJsonObj : List (String × PyVal) :=
  [("id", PyVal.str "j1"), ("name", PyVal.str "A"),
   ("coordinates", PyVal.list [PyVal.num 10, PyVal.num 20])]

/-- What the non-streaming JSON path yields for `rawJsonObj`: the
normalized, validated, source-stamped field map. -/
def normalizedJsonRec : List (String × PyVal) :=
  [("external_id", PyVal.str "j1"), ("source", PyVal.str "json"),
   ("name", PyVal.str "A"), ("latitude", PyVal.dec 10), ("longitude", PyVal.dec 20),
   ("category", PyVal.str "Unknown"), ("ratings", PyVal.list []),
   ("description", PyVal.str "")]

/-- Inputs the claim describes: `None`, or a string `float()` cannot
parse. -/
def nonNumericStrOrNone (v : PyVal) : Bool :=
  match v with
  | PyVal.none => true
  | PyVal.str s => (pyFloat? s).isNone
  | _ => false

/-- Success as a boolean, for stating conversion failure. -/
def excIsOk {ε α : Type} : Except ε α → Bool
  | Except.ok _ => true
  | Except.error _ => false

/-- C10 counterexample.  A latitude string `Decimal` cannot parse makes
`upsert_poi` raise `decimal.InvalidOperation` — which is not a
`ValueError` and is not caught by the function's
`except (ValueError, TypeError)` clause — refuting the claim that every
listed invalid payload raises `ValueError`. -/
def c10Payload : Payload :=
  { external_id := PyVal.str "x1", source := PyVal.str "csv", name := PyVal.str "N"
    latitude := PyVal.str "abc", longitude := PyVal.num 10
    category := PyVal.none, ratings := PyVal.none, description := PyVal.none }

/-- The code's clamp agrees with the spec's. -/
theorem clamp_rating_eq_spec (x : ℚ) : clamp_rating x 0 5 = spec_clamp x := by
  unfold clamp_rating spec_clamp
  split_ifs with h1 h2
  · rw [min_eq_left (by linarith), max_eq_left (by linarith)]
  · rw [min_eq_right (by linarith)]
    rw [max_eq_right (by norm_num)]
  · rw [min_eq_left (by linarith), max_eq_right (by linarith)]

/-- C1.  The stored average is the spec's: `compute_average_rating`
coincides with `round_half_up(mean(clamp(r)), 2)` on every rating list, is
`0.00` on the empty list, and every successful upsert (create or update —
both run through the same `transaction.atomic()` body) persists
`avg_rating` equal to that function of the persisted `ratings_raw`. -/
theorem avg_rating_invariant :
    (∀ r : List ℚ, compute_average_rating r = spec_average_rating r) ∧
    compute_average_rating [] = 0 ∧
    (∀ f st st' poi c, storePhase f st = Except.ok (st', poi, c) →
      poi.avg_rating = spec_average_rating poi.ratings_raw) := by
  have hmain : ∀ r : List ℚ, compute_average_rating r = spec_average_rating r := by
    intro r
    cases r with
    | nil => with_unfolding_all rfl
    | cons a l =>
        have hmap : (a :: l).map (fun r => clamp_rating r 0 5) = (a :: l).map spec_clamp :=
          List.map_congr_left fun x _ => clamp_rating_eq_spec x
        unfold compute_average_rating spec_average_rating spec_mean
        simp only [List.isEmpty_cons, if_false, Bool.false_eq_true, hmap, List.length_map]
  refine ⟨hmain, rfl, ?_⟩
  intro f st st' poi c h
  unfold storePhase at h
  split at h
  all_goals dsimp only at h
  · split at h
    · simp only [Except.ok.injEq, Prod.mk.injEq] at h
      obtain ⟨-, h2, -⟩ := h
      subst h2
      show compute_average_rating f.ratings = spec_average_rating f.ratings
      exact hmain f.ratings
    · exact absurd h (by simp)
  · split at h
    · simp only [Except.ok.injEq, Prod.mk.injEq] at h
      obtain ⟨-, h2, -⟩ := h
      subst h2
      show compute_average_rating f.ratings = spec_average_rating f.ratings
      exact hmain f.ratings
    · exact absurd h (by simp)

/-- Witness for C1: a concrete successful create persists the spec
average. -/
theorem avg_rating_invariant_witness :
    (mkPoi 1 wPrepared).avg_rating = spec_average_rating (mkPoi 1 wPrepared).ratings_raw :=
  avg_rating_invariant.2.2 wPrepared emptyStore
    { rows := [mkPoi 1 wPrepared], nextId := 2 } (mkPoi 1 wPrepared) true
    (by with_unfolding_all rfl)

/-- The row persisted by the create path passes `full_clean` exactly when
`fieldsOk` holds: the auto-assigned id never enters the checks. -/
theorem validPoi_mkPoi (i : ℕ) (f : Prepared) : validPoi (mkPoi i f) = fieldsOk f := rfl

/-- The row persisted by the update path passes `full_clean` exactly when
`fieldsOk` holds, because the preserved key columns agree with the
prepared record's. -/
theorem validPoi_updatePoi (old : Poi) (f : Prepared)
    (heid : old.external_id = f.external_id) (hsrc : old.source = f.source) :
    validPoi (updatePoi old f) = fieldsOk f := by
  unfold fieldsOk validPoi updatePoi mkPoi
  dsimp only
  rw [heid, hsrc]

/-- A row located by the `(external_id, source)` lookup carries that key. -/
theorem keyMatches_of_find? {eid src : String} {rows : List Poi} {old : Poi}
    (h : rows.find? (keyMatches eid src) = Option.some old) :
    old.external_id = eid ∧ old.source = src := by
  have hp := List.find?_some h
  unfold keyMatches at hp
  simpa [Bool.and_eq_true, beq_iff_eq] using hp

/-- Dict-path upsert reduces to the store phase once validation passed. -/
theorem upsert_poi_eq_storePhase (p : Payload) (f : Prepared) (st : Store)
    (h : prepare_payload p = Except.ok f) : upsert_poi p st = storePhase f st := by
  unfold upsert_poi
  rw [h]

/-- Evaluation of the create path. -/
theorem storePhase_create (f : Prepared) (st : Store)
    (hfind : st.rows.find? (keyMatches f.external_id f.source) = Option.none)
    (hv : fieldsOk f = true) :
    storePhase f st = Except.ok
      ({ rows := st.rows ++ [mkPoi st.nextId f], nextId := st.nextId + 1 },
       mkPoi st.nextId f, true) := by
  unfold storePhase
  rw [hfind]
  dsimp only
  rw [validPoi_mkPoi, hv]
  simp

/-- Evaluation of the update path. -/
theorem storePhase_update (f : Prepared) (st : Store) (old : Poi)
    (hfind : st.rows.find? (keyMatches f.external_id f.source) = Option.some old)
    (hv : validPoi (updatePoi old f) = true) :
    storePhase f st = Except.ok
      ({ st with rows := st.rows.map fun q =>
           if keyMatches f.external_id f.source q then updatePoi old f else q },
       updatePoi old f, false) := by
  unfold storePhase
  rw [hfind]
  dsimp only
  rw [hv]
  simp

/-- Evaluation of a failing store phase. -/
theorem storePhase_err_create (f : Prepared) (st : Store)
    (hfind : st.rows.find? (keyMatches f.external_id f.source) = Option.none)
    (hv : fieldsOk f = false) :
    storePhase f st = Except.error Exc.validationError := by
  unfold storePhase
  rw [hfind]
  dsimp only
  rw [validPoi_mkPoi, hv]
  simp

/-- C2.  Re-ingesting the same `(external_id, source)` key mutates the
single existing row into the second record's values (`created = false`),
while the same `external_id` under a second `source` creates an
independent second row. -/
theorem upsert_identity_semantics :
    (∀ p1 p2 f1 f2, prepare_payload p1 = Except.ok f1 →
      prepare_payload p2 = Except.ok f2 →
      f1.external_id = f2.external_id → f1.source = f2.source →
      fieldsOk f1 = true → fieldsOk f2 = true →
      ∃ st1 st2 poi2,
        upsert_poi p1 emptyStore = Except.ok (st1, mkPoi 1 f1, true) ∧
        upsert_poi p2 st1 = Except.ok (st2, poi2, false) ∧
        st2.rows = [poi2] ∧
        poi2.external_id = f2.external_id ∧ poi2.source = f2.source ∧
        poi2.name = f2.name ∧ poi2.latitude = f2.latitude ∧
        poi2.longitude = f2.longitude ∧ poi2.category = f2.category ∧
        poi2.ratings_raw = f2.ratings ∧
        poi2.avg_rating = compute_average_rating f2.ratings ∧
        poi2.description = f2.description) ∧
    (∀ p1 p2 f1 f2, prepare_payload p1 = Except.ok f1 →
      prepare_payload p2 = Except.ok f2 →
      f1.external_id = f2.external_id → f1.source ≠ f2.source →
      fieldsOk f1 = true → fieldsOk f2 = true →
      ∃ st2,
        upsert_poi p1 emptyStore = Except.ok
          ({ rows := [mkPoi 1 f1], nextId := 2 }, mkPoi 1 f1, true) ∧
        upsert_poi p2 { rows := [mkPoi 1 f1], nextId := 2 } =
          Except.ok (st2, mkPoi 2 f2, true) ∧
        st2.rows = [mkPoi 1 f1, mkPoi 2 f2]) := by
  have hfirst : ∀ p1 f1, prepare_payload p1 = Except.ok f1 → fieldsOk f1 = true →
      upsert_poi p1 emptyStore = Except.ok
        ({ rows := [mkPoi 1 f1], nextId := 2 }, mkPoi 1 f1, true) := by
    intro p1 f1 h1 hv1
    rw [upsert_poi_eq_storePhase p1 f1 emptyStore h1]
    exact storePhase_create f1 emptyStore rfl hv1
  constructor
  · intro p1 p2 f1 f2 h1 h2 heid hsrc hv1 hv2
    have hkm : keyMatches f2.external_id f2.source (mkPoi 1 f1) = true := by
      unfold keyMatches mkPoi
      dsimp only
      rw [heid, hsrc]
      simp
    have hfind2 : ({ rows := [mkPoi 1 f1], nextId := 2 } : Store).rows.find?
        (keyMatches f2.external_id f2.source) = Option.some (mkPoi 1 f1) :=
      List.find?_cons_of_pos _ hkm
    have hvu : validPoi (updatePoi (mkPoi 1 f1) f2) = true := by
      rw [validPoi_updatePoi (mkPoi 1 f1) f2 heid hsrc, hv2]
    refine ⟨{ rows := [mkPoi 1 f1], nextId := 2 },
      { rows := [updatePoi (mkPoi 1 f1) f2], nextId := 2 },
      updatePoi (mkPoi 1 f1) f2, hfirst p1 f1 h1 hv1, ?_, rfl,
      heid ▸ rfl, hsrc ▸ rfl, rfl, rfl, rfl, rfl, rfl, rfl, rfl⟩
    rw [upsert_poi_eq_storePhase p2 f2 _ h2,
        storePhase_update f2 _ (mkPoi 1 f1) hfind2 hvu]
    simp [hkm]
  · intro p1 p2 f1 f2 h1 h2 heid hsrc hv1 hv2
    have hkm : keyMatches f2.external_id f2.source (mkPoi 1 f1) = false := by
      unfold keyMatches mkPoi
      dsimp only
      rw [heid]
      simp [hsrc]
    have hfind2 : ({ rows := [mkPoi 1 f1], nextId := 2 } : Store).rows.find?
        (keyMatches f2.external_id f2.source) = Option.none := by
      simp [List.find?_cons, hkm]
    refine ⟨{ rows := [mkPoi 1 f1, mkPoi 2 f2], nextId := 3 },
      hfirst p1 f1 h1 hv1, ?_, rfl⟩
    rw [upsert_poi_eq_storePhase p2 f2 _ h2,
        storePhase_create f2 _ hfind2 hv2]
    rfl

/-- Witness for C2 at concrete records. -/
theorem upsert_identity_semantics_witness :
    (∃ st1 st2 poi2,
        upsert_poi wPayloadA emptyStore = Except.ok (st1, mkPoi 1 wPrepA, true) ∧
        upsert_poi wPayloadB st1 = Except.ok (st2, poi2, false) ∧
        st2.rows = [poi2] ∧
        poi2.external_id = wPrepB.external_id ∧ poi2.source = wPrepB.source ∧
        poi2.name = wPrepB.name ∧ poi2.latitude = wPrepB.latitude ∧
        poi2.longitude = wPrepB.longitude ∧ poi2.category = wPrepB.category ∧
        poi2.ratings_raw = wPrepB.ratings ∧
        poi2.avg_rating = compute_average_rating wPrepB.ratings ∧
        poi2.description = wPrepB.description) ∧
    (∃ st2,
        upsert_poi wPayloadA emptyStore = Except.ok
          ({ rows := [mkPoi 1 wPrepA], nextId := 2 }, mkPoi 1 wPrepA, true) ∧
        upsert_poi wPayloadC { rows := [mkPoi 1 wPrepA], nextId := 2 } =
          Except.ok (st2, mkPoi 2 wPrepC, true) ∧
        st2.rows = [mkPoi 1 wPrepA, mkPoi 2 wPrepC]) :=
  ⟨upsert_identity_semantics.1 wPayloadA wPayloadB wPrepA wPrepB
      (by with_unfolding_all rfl) (by with_unfolding_all rfl) rfl rfl
      (by with_unfolding_all rfl) (by with_unfolding_all rfl),
   upsert_identity_semantics.2 wPayloadA wPayloadC wPrepA wPrepC
      (by with_unfolding_all rfl) (by with_unfolding_all rfl) rfl
      (by decide) (by with_unfolding_all rfl) (by with_unfolding_all rfl)⟩

/-- C7.  The update path of `upsert_poi` overwrites exactly `name`,
`latitude`, `longitude`, `category`, `ratings_raw`, `avg_rating` (freshly
recomputed) and `description`, preserves `id`, `external_id` and `source`,
and returns `created = false`; the create path inserts a fresh row and
returns `created = true`. -/
theorem upsert_frame_semantics :
    (∀ p f st old, prepare_payload p = Except.ok f →
      st.rows.find? (keyMatches f.external_id f.source) = Option.some old →
      validPoi (updatePoi old f) = true →
      upsert_poi p st = Except.ok
        ({ st with rows := st.rows.map fun q =>
             if keyMatches f.external_id f.source q then updatePoi old f else q },
         updatePoi old f, false) ∧
      (updatePoi old f).id = old.id ∧
      (updatePoi old f).external_id = old.external_id ∧
      (updatePoi old f).source = old.source ∧
      (updatePoi old f).name = f.name ∧
      (updatePoi old f).latitude = f.latitude ∧
      (updatePoi old f).longitude = f.longitude ∧
      (updatePoi old f).category = f.category ∧
      (updatePoi old f).ratings_raw = f.ratings ∧
      (updatePoi old f).avg_rating = compute_average_rating f.ratings ∧
      (updatePoi old f).description = f.description) ∧
    (∀ p f st, prepare_payload p = Except.ok f →
      st.rows.find? (keyMatches f.external_id f.source) = Option.none →
      fieldsOk f = true →
      upsert_poi p st = Except.ok
        ({ rows := st.rows ++ [mkPoi st.nextId f], nextId := st.nextId + 1 },
         mkPoi st.nextId f, true)) := by
  constructor
  · intro p f st old hp hfind hv
    exact ⟨by rw [upsert_poi_eq_storePhase p f st hp, storePhase_update f st old hfind hv],
      rfl, rfl, rfl, rfl, rfl, rfl, rfl, rfl, rfl, rfl⟩
  · intro p f st hp hfind hv
    rw [upsert_poi_eq_storePhase p f st hp, storePhase_create f st hfind hv]

/-- Witness for C7: a concrete update over a one-row store and a concrete
create over the empty store. -/
theorem upsert_frame_semantics_witness :
    (upsert_poi wPayloadB { rows := [mkPoi 1 wPrepA], nextId := 2 } = Except.ok
        ({ rows := [mkPoi 1 wPrepA].map fun q =>
             if keyMatches wPrepB.external_id wPrepB.source q then
               updatePoi (mkPoi 1 wPrepA) wPrepB else q,
           nextId := 2 },
         updatePoi (mkPoi 1 wPrepA) wPrepB, false) ∧
      (updatePoi (mkPoi 1 wPrepA) wPrepB).id = (mkPoi 1 wPrepA).id ∧
      (updatePoi (mkPoi 1 wPrepA) wPrepB).external_id = (mkPoi 1 wPrepA).external_id ∧
      (updatePoi (mkPoi 1 wPrepA) wPrepB).source = (mkPoi 1 wPrepA).source ∧
      (updatePoi (mkPoi 1 wPrepA) wPrepB).name = wPrepB.name ∧
      (updatePoi (mkPoi 1 wPrepA) wPrepB).latitude = wPrepB.latitude ∧
      (updatePoi (mkPoi 1 wPrepA) wPrepB).longitude = wPrepB.longitude ∧
      (updatePoi (mkPoi 1 wPrepA) wPrepB).category = wPrepB.category ∧
      (updatePoi (mkPoi 1 wPrepA) wPrepB).ratings_raw = wPrepB.ratings ∧
      (updatePoi (mkPoi 1 wPrepA) wPrepB).avg_rating =
        compute_average_rating wPrepB.ratings ∧
      (updatePoi (mkPoi 1 wPrepA) wPrepB).description = wPrepB.description) ∧
    upsert_poi wPayloadA emptyStore = Except.ok
      ({ rows := emptyStore.rows ++ [mkPoi emptyStore.nextId wPrepA],
         nextId := emptyStore.nextId + 1 }, mkPoi emptyStore.nextId wPrepA, true) :=
  ⟨upsert_frame_semantics.1 wPayloadB wPrepB
      { rows := [mkPoi 1 wPrepA], nextId := 2 } (mkPoi 1 wPrepA)
      (by with_unfolding_all rfl) (by with_unfolding_all rfl)
      (by with_unfolding_all rfl),
   upsert_frame_semantics.2 wPayloadA wPrepA emptyStore
      (by with_unfolding_all rfl) rfl (by with_unfolding_all rfl)⟩

/-- Success of `upsert_poi` is store-independent: it succeeds exactly when
the payload validates and the resulting row passes `full_clean`
(`payloadOk`). -/
theorem upsert_poi_isOk (p : Payload) (st : Store) :
    (∃ x, upsert_poi p st = Except.ok x) ↔ payloadOk p = true := by
  unfold payloadOk
  cases hp : prepare_payload p with
  | error e =>
      have hval : upsert_poi p st = Except.error e := by
        unfold upsert_poi
        rw [hp]
      simp [hval]
  | ok f =>
      rw [upsert_poi_eq_storePhase p f st hp]
      cases hfind : st.rows.find? (keyMatches f.external_id f.source) with
      | none =>
          cases hv : fieldsOk f with
          | true =>
              simp [storePhase_create f st hfind hv]
              exact hv
          | false =>
              simp [storePhase_err_create f st hfind hv]
              exact hv
      | some old =>
          obtain ⟨heid, hsrc⟩ := keyMatches_of_find? hfind
          cases hv : fieldsOk f with
          | true =>
              have hvu : validPoi (updatePoi old f) = true := by
                rw [validPoi_updatePoi old f heid hsrc, hv]
              simp [storePhase_update f st old hfind hvu]
              exact hv
          | false =>
              have hval : storePhase f st = Except.error Exc.validationError := by
                unfold storePhase
                rw [hfind]
                dsimp only
                rw [validPoi_updatePoi old f heid hsrc, hv]
                simp
              simp [hval]
              exact hv

/-- A payload that fails `payloadOk` makes `upsert_poi` raise on every
store. -/
theorem upsert_poi_err (p : Payload) (st : Store) (h : payloadOk p = false) :
    ∃ e, upsert_poi p st = Except.error e := by
  cases hres : upsert_poi p st with
  | ok x => exact absurd ((upsert_poi_isOk p st).mp ⟨x, hres⟩) (by simp [h])
  | error e => exact ⟨e, rfl⟩

/-- One step of `applyAll`. -/
theorem applyAll_cons (r : Payload) (l : List Payload) (st : Store) :
    applyAll (r :: l) st =
      applyAll l
        (match upsert_poi r st with
         | Except.ok (st', _, _) => st'
         | Except.error _ => st) := rfl

/-- `applyAll` distributes over append. -/
theorem applyAll_append (l1 l2 : List Payload) (st : Store) :
    applyAll (l1 ++ l2) st = applyAll l2 (applyAll l1 st) := by
  unfold applyAll
  rw [List.foldl_append]

/-- A failing record contributes nothing to `applyAll`. -/
theorem applyAll_err_cons (r : Payload) (l : List Payload) (st : Store)
    (h : payloadOk r = false) : applyAll (r :: l) st = applyAll l st := by
  obtain ⟨e, hup⟩ := upsert_poi_err r st h
  rw [applyAll_cons, hup]

/-- Unfolding equation for one step of the whole-batch pass. -/
theorem batchAttempt_cons (b : Bool) (r : Payload) (rest : List Payload)
    (st : Store) (s : Stats) :
    batchAttempt b (r :: rest) st s =
      match upsert_poi r st with
      | Except.ok (st', _, true) =>
          batchAttempt b rest st' { s with created := s.created + 1 }
      | Except.ok (st', _, false) =>
          batchAttempt b rest st' { s with updated := s.updated + 1 }
      | Except.error _ =>
          let s' := { s with errors := s.errors + 1 }
          if b then (st, s', true) else batchAttempt b rest st s' := rfl

/-- Characterization of the whole-batch pass without `stop_on_error`: it
never raises, its store effect is `applyAll`, every failing record adds one
to `errors`, and every succeeding record adds one to `created + updated`. -/
theorem batchAttempt_false_spec (l : List Payload) : ∀ (st : Store) (s : Stats),
    ∃ s' : Stats,
      batchAttempt false l st s = (applyAll l st, s', false) ∧
      s'.errors = s.errors + (l.countP fun r => !payloadOk r) ∧
      s'.created + s'.updated = s.created + s.updated + (l.countP fun r => payloadOk r) := by
  induction l with
  | nil =>
      intro st s
      exact ⟨s, rfl, by simp, by simp⟩
  | cons r rest ih =>
      intro st s
      cases hok : payloadOk r with
      | true =>
          obtain ⟨⟨st', poi, c⟩, hup⟩ := (upsert_poi_isOk r st).mpr hok
          have hstep : batchAttempt false (r :: rest) st s =
              batchAttempt false rest st'
                (if c then { s with created := s.created + 1 }
                 else { s with updated := s.updated + 1 }) := by
            rw [batchAttempt_cons, hup]
            cases c <;> rfl
          obtain ⟨s', hEq, hErr, hCnt⟩ := ih st'
            (if c then { s with created := s.created + 1 }
             else { s with updated := s.updated + 1 })
          refine ⟨s', ?_, ?_, ?_⟩
          · rw [hstep, applyAll_cons, hup]
            exact hEq
          · rw [hErr]
            cases c <;> simp [List.countP_cons, hok]
          · rw [hCnt]
            cases c <;> simp [List.countP_cons, hok] <;> omega
      | false =>
          obtain ⟨e, hup⟩ := upsert_poi_err r st hok
          have hstep : batchAttempt false (r :: rest) st s =
              batchAttempt false rest st { s with errors := s.errors + 1 } := by
            rw [batchAttempt_cons, hup]
            rfl
          obtain ⟨s', hEq, hErr, hCnt⟩ := ih st { s with errors := s.errors + 1 }
          refine ⟨s', ?_, ?_, ?_⟩
          · rw [hstep, applyAll_err_cons r rest st hok]
            exact hEq
          · rw [hErr]
            simp [List.countP_cons, hok]
            omega
          · rw [hCnt]
            simp [List.countP_cons, hok]

/-- C3.  With the default `stop_on_error = False`, a batch containing one
record that violates a store constraint among `N` valid records commits all
`N` valid records (each counted once as created or updated), counts exactly
one error, and does not raise — wherever the invalid record sits. -/
theorem batch_one_invalid (va vb : List Payload) (bad : Payload) (st : Store) (s : Stats)
    (hva : ∀ r ∈ va, payloadOk r = true) (hvb : ∀ r ∈ vb, payloadOk r = true)
    (hbad : payloadOk bad = false) :
    ∃ s', process_batch false (va ++ bad :: vb) st s =
        { store := applyAll (va ++ vb) st, stats := s', raised := false } ∧
      s'.errors = s.errors + 1 ∧
      s'.created + s'.updated = s.created + s.updated + (va.length + vb.length) := by
  obtain ⟨s', hEq, hErr, hCnt⟩ := batchAttempt_false_spec (va ++ bad :: vb) st s
  have hstore : applyAll (va ++ bad :: vb) st = applyAll (va ++ vb) st := by
    rw [applyAll_append, applyAll_err_cons bad vb _ hbad, applyAll_append]
  have hcount0 : (va.countP fun r => !payloadOk r) = 0 := by
    rw [List.countP_eq_zero]
    intro a ha
    simp [hva a ha]
  have hcount0' : (vb.countP fun r => !payloadOk r) = 0 := by
    rw [List.countP_eq_zero]
    intro a ha
    simp [hvb a ha]
  have hlen : (va.countP fun r => payloadOk r) = va.length :=
    List.countP_eq_length.mpr (fun a ha => by simp [hva a ha])
  have hlen' : (vb.countP fun r => payloadOk r) = vb.length :=
    List.countP_eq_length.mpr (fun a ha => by simp [hvb a ha])
  refine ⟨s', ?_, ?_, ?_⟩
  · unfold process_batch
    rw [hEq, hstore]
  · rw [hErr]
    simp [List.countP_append, List.countP_cons, hcount0, hcount0', hbad]
  · rw [hCnt]
    simp [List.countP_append, List.countP_cons, hlen, hlen', hbad]

/-- Witness for C3 at a concrete two-good-one-bad batch. -/
theorem batch_one_invalid_witness :
    (∀ r ∈ [wPayloadA], payloadOk r = true) ∧
    payloadOk wPayloadBad = false ∧
    (∃ s', process_batch false ([wPayloadA] ++ wPayloadBad :: [wPayloadC])
        emptyStore { created := 0, updated := 0, errors := 0 } =
        { store := applyAll ([wPayloadA] ++ [wPayloadC]) emptyStore,
          stats := s', raised := false } ∧
      s'.errors = 0 + 1 ∧
      s'.created + s'.updated = 0 + 0 + (1 + 1)) := by
  have hA : payloadOk wPayloadA = true := by with_unfolding_all rfl
  have hC : payloadOk wPayloadC = true := by with_unfolding_all rfl
  have hB : payloadOk wPayloadBad = false := by with_unfolding_all rfl
  refine ⟨fun r hr => ?_, hB, ?_⟩
  · rw [List.mem_singleton.mp hr]
    exact hA
  · have := batch_one_invalid [wPayloadA] [wPayloadC] wPayloadBad emptyStore
      { created := 0, updated := 0, errors := 0 }
      (fun r hr => by rw [List.mem_singleton.mp hr]; exact hA)
      (fun r hr => by rw [List.mem_singleton.mp hr]; exact hC) hB
    simpa using this

/-- C4.  Counter evaluation across the batch→fallback transition, at a
concrete failing batch: one valid record followed by one
constraint-violating record under `stop_on_error` (the re-raise makes the
whole-batch transaction fail and roll back, which is the transition the
claim quantifies over).  The failed batch attempt's increments (`created =
1`, `errors = 1`) survive into the fallback pass, which counts the same
two records again: the final counters are `created = 2, errors = 2` — four
increments for a two-record batch, so the valid record is double-counted
as created and the invalid one double-counted as an error, refuting the
"exactly one increment per record" invariant. -/
theorem process_batch_double_counts :
    (process_batch true [wPayloadA, wPayloadBad] emptyStore
        { created := 0, updated := 0, errors := 0 }).stats =
      { created := 2, updated := 0, errors := 2 } ∧
    2 + 0 + 2 ≠ [wPayloadA, wPayloadBad].length := by
  constructor
  · with_unfolding_all rfl
  · decide

/-- C5.  The schema does NOT clamp out-of-range ratings: the
`List[Rating]` bound (`confloat(ge=0, le=5)`) rejects `6.0` and `-1.0`
before the `mode="after"` `validate_ratings` field validator can run, so
validating the record fails outright — even though `validate_ratings`
itself, run in isolation, would clamp exactly as the claim describes, and
the clamped average would be `3.00`.  The dict-path ingestion of the same
ratings also fails (`full_clean` rejects the out-of-range stored
`ratings_raw`), so no path stores `avg_rating = 3.00`. -/
theorem validator_rejects_out_of_range_ratings :
    validate_poi_record c5Raw = Except.error Exc.validationError ∧
    validate_ratings [PyVal.num 6, PyVal.num (-1), PyVal.num 3, PyVal.num 4] =
      [5, 0, 3, 4] ∧
    compute_average_rating [5, 0, 3, 4] = 3 ∧
    upsert_poi c5Payload emptyStore = Except.error Exc.validationError := by
  refine ⟨?_, ?_, ?_, ?_⟩ <;> with_unfolding_all rfl

/-- C6.  Encoding order and empty encodings behave as claimed
(brace-delimited first, then JSON array, then separator split; empty,
`"[]"` and `"\x7b\x7d"` give `[]`; `"\x7b4.5,3.8,4.2\x7d"` parses), but
non-numeric elements are NOT dropped: `coerce_to_float` never raises and
substitutes the default `0.0`, so `"1,abc,2"` yields `[1.0, 0.0, 2.0]`
instead of the claimed `[1.0, 2.0]` (same in the JSON-array encoding). -/
theorem coerce_to_float_list_defaults_non_numeric :
    coerce_to_float_list (PyVal.str "1,abc,2") "," = [1, 0, 2] ∧
    coerce_to_float_list (PyVal.str "[1, \"abc\", 2]") "," = [1, 0, 2] ∧
    coerce_to_float_list (PyVal.str "\x7b4.5,3.8,4.2\x7d") "," = [4.5, 3.8, 4.2] ∧
    coerce_to_float_list (PyVal.str "") "," = [] ∧
    coerce_to_float_list (PyVal.str "[]") "," = [] ∧
    coerce_to_float_list (PyVal.str "\x7b\x7d") "," = [] ∧
    ([1, 0, 2] : List ℚ) ≠ [1, 2] := by
  refine ⟨?_, ?_, ?_, ?_, ?_, ?_, ?_⟩ <;> with_unfolding_all (first | rfl | decide)

/-- C8.  With the optional `ijson` dependency importable, the
orchestrator's JSON streaming path yields the RAW object — no
`external_id`, no parser-stamped `source`, not the converged field-map
shape (such a record then fails the orchestrator's payload validation and
is skipped).  Only the `ijson`-unavailable fallback produces the
converged 8-key shape with `source = "json"` stamped by the parser. -/
theorem stream_parse_json_unstamped :
    stream_parse_json true (PyVal.list [PyVal.dict rawJsonObj]) = [rawJsonObj] ∧
    rawJsonObj.lookup "source" = Option.none ∧
    rawJsonObj.lookup "external_id" = Option.none ∧
    (∃ rec, stream_parse_json false (PyVal.list [PyVal.dict rawJsonObj]) = [rec] ∧
      rec.lookup "source" = Option.some (PyVal.str "json") ∧
      rec.map Prod.fst = ["external_id", "source", "name", "latitude",
        "longitude", "category", "ratings", "description"]) := by
  refine ⟨rfl, rfl, rfl, ⟨normalizedJsonRec, ?_, ?_, ?_⟩⟩
  · with_unfolding_all rfl
  · with_unfolding_all rfl
  · with_unfolding_all rfl

/-- Coercion of such an input yields the default. -/
theorem coerce_to_float_default (v : PyVal) (d : ℚ)
    (h : nonNumericStrOrNone v = true) : coerce_to_float v d = d := by
  cases v with
  | none => rfl
  | str s =>
      unfold nonNumericStrOrNone at h
      dsimp only at h
      unfold coerce_to_float
      by_cases ht : s.trim = ""
      · simp [ht]
      · simp only [ht, if_false]
        cases hp : pyFloat? s with
        | some q =>
            rw [hp] at h
            simp at h
        | none => rfl
  | num q => exact Bool.noConfusion h
  | dec q => exact Bool.noConfusion h
  | list xs => exact Bool.noConfusion h
  | dict kvs => exact Bool.noConfusion h

/-- C9.  Non-numeric (or `None`) coordinate inputs coerce to the default
`0.0`, which is inside both legal ranges, so `parse_coordinates` returns
the in-range pair `(0.000000, 0.000000)` rather than the absent pair; the
absent pair arises exactly when a coerced value falls out of range. -/
theorem parse_coordinates_default_pair :
    (∀ v w, nonNumericStrOrNone v = true → nonNumericStrOrNone w = true →
      parse_coordinates v w = Option.some (0, 0)) ∧
    (∀ v w, parse_coordinates v w = Option.none ↔
      (¬((-90 : ℚ) ≤ coerce_to_float v 0 ∧ coerce_to_float v 0 ≤ 90) ∨
       ¬((-180 : ℚ) ≤ coerce_to_float w 0 ∧ coerce_to_float w 0 ≤ 180))) := by
  constructor
  · intro v w h1 h2
    unfold parse_coordinates
    rw [coerce_to_float_default v 0 h1, coerce_to_float_default w 0 h2,
        if_neg (not_not_intro (by norm_num)), if_neg (not_not_intro (by norm_num))]
    have hz : round_half_even 6 0 = 0 := by with_unfolding_all rfl
    rw [hz]
  · intro v w
    unfold parse_coordinates
    by_cases hA : ((-90 : ℚ) ≤ coerce_to_float v 0 ∧ coerce_to_float v 0 ≤ 90)
    · by_cases hB : ((-180 : ℚ) ≤ coerce_to_float w 0 ∧ coerce_to_float w 0 ≤ 180)
      · rw [if_neg (not_not_intro hA), if_neg (not_not_intro hB)]
        simp [hA, hB]
      · rw [if_neg (not_not_intro hA), if_pos hB]
        simp [hB]
    · rw [if_pos hA]
      simp [hA]

/-- Witness for C9: a non-numeric latitude string and an absent
longitude give the in-range origin pair. -/
theorem parse_coordinates_default_pair_witness :
    nonNumericStrOrNone (PyVal.str "abc") = true ∧
    nonNumericStrOrNone PyVal.none = true ∧
    parse_coordinates (PyVal.str "abc") PyVal.none = Option.some (0, 0) :=
  ⟨by with_unfolding_all rfl, rfl,
   parse_coordinates_default_pair.1 (PyVal.str "abc") PyVal.none
     (by with_unfolding_all rfl) rfl⟩

/-- Inversion of a successful `prepare_payload`: every validation the
function performs must have passed. -/
theorem prepare_ok_conditions (p : Payload) (f : Prepared)
    (h : prepare_payload p = Except.ok f) :
    normalize_string p.external_id "" ≠ "" ∧
    (normalize_string p.source "" = "csv" ∨ normalize_string p.source "" = "json" ∨
      normalize_string p.source "" = "xml") ∧
    normalize_string p.name "" ≠ "" ∧
    isNonePy p.latitude = false ∧ isNonePy p.longitude = false ∧
    excIsOk (pyToDecimal p.latitude) = true ∧
    excIsOk (pyToDecimal p.longitude) = true := by
  unfold prepare_payload at h
  by_cases h1 : normalize_string p.external_id "" = ""
  · rw [if_pos h1] at h
    simp at h
  rw [if_neg h1] at h
  by_cases h2 : (!(normalize_string p.source "" == "csv" ||
      normalize_string p.source "" == "json" ||
      normalize_string p.source "" == "xml")) = true
  · rw [if_pos h2] at h
    simp at h
  rw [if_neg h2] at h
  by_cases h3 : normalize_string p.name "" = ""
  · rw [if_pos h3] at h
    simp at h
  rw [if_neg h3] at h
  by_cases h4 : (isNonePy p.latitude || isNonePy p.longitude) = true
  · rw [if_pos h4] at h
    simp at h
  rw [if_neg h4] at h
  cases hlat : pyToDecimal p.latitude with
  | error e =>
      rw [hlat] at h
      simp at h
  | ok lat =>
      rw [hlat] at h
      cases hlon : pyToDecimal p.longitude with
      | error e =>
          rw [hlon] at h
          simp at h
      | ok lon =>
          have hsrc3 : (normalize_string p.source "" == "csv" ||
              normalize_string p.source "" == "json" ||
              normalize_string p.source "" == "xml") = true := by
            cases hx : (normalize_string p.source "" == "csv" ||
                normalize_string p.source "" == "json" ||
                normalize_string p.source "" == "xml") with
            | true => rfl
            | false => exact absurd (by rw [hx]; rfl) h2
          simp only [Bool.or_eq_true, not_or, Bool.not_eq_true] at h4
          simp only [Bool.or_eq_true, beq_iff_eq] at hsrc3
          exact ⟨h1, by tauto, h3, h4.1, h4.2,
            by simp [excIsOk, hlat], by simp [excIsOk, hlon]⟩

/-- The counterexample evaluation: the raised exception class is
`InvalidOperation`, not `ValueError`. -/
theorem upsert_invalid_latitude_not_value_error :
    upsert_poi c10Payload emptyStore = Except.error Exc.invalidOperation ∧
    (∀ m, Exc.invalidOperation ≠ Exc.valueError m) :=
  ⟨by with_unfolding_all rfl, fun m h => Exc.noConfusion h⟩

/-- C10 (amended).  Every payload in the five invalid classes (empty
trimmed `external_id`, source outside the three literals, empty trimmed
`name`, missing coordinate, or a coordinate `Decimal` cannot convert)
makes `upsert_poi` raise before any store operation — as `ValueError` for
the first four classes and `decimal.InvalidOperation` for the conversion
failure — and an erroring `upsert_poi` hands the caller's store back
untouched, on every store. -/
theorem upsert_invalid_payload_rejected (p : Payload) (st : Store)
    (h : normalize_string p.external_id "" = "" ∨
         ¬(normalize_string p.source "" = "csv" ∨ normalize_string p.source "" = "json" ∨
           normalize_string p.source "" = "xml") ∨
         normalize_string p.name "" = "" ∨
         isNonePy p.latitude = true ∨ isNonePy p.longitude = true ∨
         excIsOk (pyToDecimal p.latitude) = false ∨
         excIsOk (pyToDecimal p.longitude) = false) :
    ∃ e, upsert_poi p st = Except.error e := by
  cases hp : prepare_payload p with
  | error e =>
      refine ⟨e, ?_⟩
      unfold upsert_poi
      rw [hp]
  | ok f =>
      exfalso
      obtain ⟨c1, c2, c3, c4, c5, c6, c7⟩ := prepare_ok_conditions p f hp
      rcases h with h | h | h | h | h | h | h
      · exact c1 h
      · exact h c2
      · exact c3 h
      · rw [c4] at h
        exact Bool.noConfusion h
      · rw [c5] at h
        exact Bool.noConfusion h
      · rw [c6] at h
        exact Bool.noConfusion h
      · rw [c7] at h
        exact Bool.noConfusion h

/-- Witness for the amended C10: a payload with a missing `external_id`
is rejected with an error on the empty store. -/
theorem upsert_invalid_payload_rejected_witness :
    ∃ e, upsert_poi
      { external_id := PyVal.none, source := PyVal.str "csv", name := PyVal.str "N"
        latitude := PyVal.num 1, longitude := PyVal.num 2, category := PyVal.none
        ratings := PyVal.none, description := PyVal.none } emptyStore =
      Except.error e :=
  upsert_invalid_payload_rejected _ emptyStore (Or.inl rfl)

end PoiIngest
